import Mathlib

/-!
Verification of the terrarium hillshade pipeline from
src/src/terrarium_featureset.ipp. The numeric pipeline is embedded over the
real numbers: double arithmetic in the source becomes real arithmetic here,
C int and uint8_t arithmetic becomes Nat and Int arithmetic with explicit
truncation and reduction modulo 256 where the source narrows.
-/

open Real

namespace Terrarium

/-- Decoder height_val from the source. The packed pixel is a natural number
below 2 ^ 32; the low byte is red, the next green, the next blue. The C body
computes (red * 256 + green + blue / 256) - 32768 in int arithmetic, so
blue / 256 is integer division on a value below 256. -/
def height_val (pixel : ℕ) : ℤ :=
  let red : ℕ := pixel &&& 0xff
  let green : ℕ := (pixel >>> 8) &&& 0xff
  let blue : ℕ := (pixel >>> 16) &&& 0xff
  ((red * 256 + green + blue / 256 : ℕ) : ℤ) - 32768

/-- Packs four channel bytes into one 32 bit pixel value, low byte red, as
the C helper pxl_from_rgba does with shifts and bitwise or. -/
def pxl_from_rgba (r g b a : ℕ) : ℕ :=
  ((a <<< 24) ||| (b <<< 16) ||| (g <<< 8) ||| r) % 2 ^ 32

/-- Model of mapnik::color: four 8 bit channels. Sites that build a color
with the three argument constructor set alpha to 255, the mapnik default. -/
structure color where
  red : ℕ
  green : ℕ
  blue : ℕ
  alpha : ℕ

/-- Packs a color into one 32 bit value, as the C helper bytes does. -/
def bytes (c : color) : ℕ :=
  ((c.alpha <<< 24) ||| (c.blue <<< 16) ||| (c.green <<< 8) ||| c.red) % 2 ^ 32

/-- blend from the source: each channel sum is stored into a uint8_t, so it
is reduced modulo 256. The constructed color has the default alpha 255. -/
def blend (color1 color2 : color) : color :=
  { red := (color1.red + color2.red) % 256
    green := (color1.green + color2.green) % 256
    blue := (color1.blue + color2.blue) % 256
    alpha := 255 }

/-- Model of the 516 by 516 input bitmap: data row col is the packed pixel
at that storage coordinate. The pipeline only reads rows and columns
0 .. 515. -/
structure ImageRGBA8 where
  data : ℕ → ℕ → ℕ

/-- get_height from the source: reads the pixel at storage row row + 2 and
column col + 2 and decodes it. Call sites use rows and columns -1 .. 512, so
the arguments are integers, as in the C code. -/
def get_height (input : ImageRGBA8) (row col : ℤ) : ℤ :=
  height_val (input.data (row + 2).toNat (col + 2).toNat)

/-- Conversion of a nonnegative double to uint8_t as the C code performs it:
truncation toward zero, reduced modulo 256 to make the function total. Every
value the pipeline actually converts lies in [0, 255], as proved below, so
the reduction never changes anything. -/
noncomputable def byteOfReal (x : ℝ) : ℕ :=
  (Int.toNat ⌊x⌋) % 256

/-- atan2 from the C math library: atan2 y x is the angle of the point
(x, y) in the plane, in (-pi, pi], with atan2 0 0 = 0. -/
noncomputable def atan2 (y x : ℝ) : ℝ :=
  Complex.arg (x + y * Complex.I)

/-- Central height difference along a row, from process_hillshade. -/
noncomputable def dzdx (input : ImageRGBA8) (row col : ℤ) : ℝ :=
  (get_height input row (col + 1) : ℝ) - (get_height input row (col - 1) : ℝ)

/-- Central height difference along a column, from process_hillshade. -/
noncomputable def dzdy (input : ImageRGBA8) (row col : ℤ) : ℝ :=
  (get_height input (row + 1) col : ℝ) - (get_height input (row - 1) col : ℝ)

/-- Slope angle from process_hillshade. -/
noncomputable def slope (input : ImageRGBA8) (row col : ℤ) : ℝ :=
  Real.arctan (0.2 * Real.sqrt (dzdx input row col ^ 2 + dzdy input row col ^ 2))

/-- Aspect angle from process_hillshade. -/
noncomputable def aspect (input : ImageRGBA8) (row col : ℤ) : ℝ :=
  atan2 (-(dzdy input row col)) (-(dzdx input row col))

/-- Luminance of one directional light before clamping and gamma, exactly
the expression assigned to luminance1 and luminance2 in the source. -/
noncomputable def rawLuminance (azimuth elevation slope aspect : ℝ) : ℝ :=
  Real.cos (π * 0.5 - aspect - (azimuth - 90) * π / 180) * Real.sin slope *
      Real.sin (π * 0.5 - elevation * π / 180) +
    Real.cos slope * Real.cos (π * 0.5 - elevation * π / 180)

/-- Luminance after the clamp at 0, the gamma lift and the scaling to 255,
following the three assignments in the source. -/
noncomputable def postLuminance (azimuth elevation slope aspect : ℝ) : ℝ :=
  let l0 := rawLuminance azimuth elevation slope aspect
  let l1 := if l0 < 0 then 0 else l0
  Real.sqrt (l1 * 0.8 + 0.2) * 255

/-- Post gamma luminance of light one, azimuth 315, elevation 45. -/
noncomputable def luminance1 (input : ImageRGBA8) (row col : ℤ) : ℝ :=
  postLuminance 315 45 (slope input row col) (aspect input row col)

/-- Post gamma luminance of light two, azimuth 225, elevation 45. -/
noncomputable def luminance2 (input : ImageRGBA8) (row col : ℤ) : ℝ :=
  postLuminance 225 45 (slope input row col) (aspect input row col)

/-- Tint of light one: mapnik color of luminance1, luminance1 / 2 and 0,
each narrowed to uint8_t. -/
noncomputable def color1 (input : ImageRGBA8) (row col : ℤ) : color :=
  { red := byteOfReal (luminance1 input row col)
    green := byteOfReal (luminance1 input row col / 2)
    blue := 0
    alpha := 255 }

/-- Tint of light two: mapnik color of 0, luminance2 / 2 and luminance2,
each narrowed to uint8_t. -/
noncomputable def color2 (input : ImageRGBA8) (row col : ℤ) : color :=
  { red := 0
    green := byteOfReal (luminance2 input row col / 2)
    blue := byteOfReal (luminance2 input row col)
    alpha := 255 }

/-- Alpha value before narrowing: (hgt - 20) / 100 * 255, capped above at
255 and then below at 0, in the order of the two if statements in the
source. -/
noncomputable def alphaVal (input : ImageRGBA8) (row col : ℤ) : ℝ :=
  let a0 := ((get_height input row col : ℝ) - 20) / 100 * 255
  let a1 := if a0 > 255 then 255 else a0
  if a1 < 0 then 0 else a1

/-- One output pixel of process_hillshade: the blend of the two tints, with
its alpha overwritten by set_alpha, which narrows the double to uint8_t. -/
noncomputable def hillshadePixel (input : ImageRGBA8) (row col : ℤ) : color :=
  { blend (color1 input row col) (color2 input row col) with
    alpha := byteOfReal (alphaVal input row col) }

/-- Packed output pixel written into the raster row buffer. -/
noncomputable def process_hillshade (input : ImageRGBA8) (row col : ℤ) : ℕ :=
  bytes (hillshadePixel input row col)

/-- Decoder as the specification words it, with real division so that blue
contributes the fractional amount blue / 256. It exists only to be compared
with height_val, which the source actually computes. -/
noncomputable def heightSpec (red green blue : ℕ) : ℝ :=
  red * 256 + green + (blue : ℝ) / 256 - 32768

/-- Failure taxonomy of the tile read and decode, from section 7 of the
specification: the source catches image_reader_exception, std::exception and
everything else. -/
inductive read_error where
  | tile_read_failure
  | decode_failure
  | other

/-- Feature returned to the consumer: an identity and an optional attached
raster, the raster being the packed output pixels. -/
structure feature where
  id : ℕ
  raster : Option (ℤ → ℤ → ℕ)

/-- State of terrarium_featureset across calls: the running feature id and
the done flag. -/
structure featureset_state where
  feature_id : ℕ
  done : Bool

/-- Modelled from the spec: the initial value of the done flag is declared
in the header terrarium_featureset.hpp, which is absent from the sources
here; section 4.8 of the specification states the producer starts in the
Ready state, so done starts false. The field feature_id starts at 1, from
the constructor initialiser list in the source. -/
def initState : featureset_state :=
  { feature_id := 1, done := false }

/-- next mirrors terrarium_featureset::next. Exceptions thrown by the tile
read and the decode are modelled as an Except value consumed here: the C
function catches every exception, so this function is total. If done, the
call returns the empty feature_ptr, modelled as none. Otherwise a feature
with the current id is created and the id incremented; on the ok branch the
hillshade raster is attached, on the error branch the feature is returned
without a raster; in both branches done becomes true. -/
noncomputable def next (fs : featureset_state)
    (read_result : Except read_error ImageRGBA8) :
    Option feature × featureset_state :=
  if fs.done then (none, fs)
  else
    match read_result with
    | Except.ok input =>
        (some { id := fs.feature_id,
                raster := some (fun row col => process_hillshade input row col) },
         { feature_id := fs.feature_id + 1, done := true })
    | Except.error _ =>
        (some { id := fs.feature_id, raster := none },
         { feature_id := fs.feature_id + 1, done := true })

/-- Results of a sequence of calls to next, threading the state. -/
noncomputable def callSeq :
    featureset_state → List (Except read_error ImageRGBA8) → List (Option feature)
  | _, [] => []
  | fs, r :: rs => (next fs r).1 :: callSeq (next fs r).2 rs

/-- Input bitmap whose every pixel is the same packed value. -/
def constImg (v : ℕ) : ImageRGBA8 :=
  { data := fun _ _ => v }

/-- Clamping below at 0 by an if statement is the max with 0. -/
lemma ite_lt_zero_eq_max (x : ℝ) : (if x < 0 then 0 else x) = max x 0 := by
  rcases lt_or_le x 0 with h | h
  · simp [if_pos h, max_eq_right h.le]
  · simp [if_neg (Iff.mpr not_lt h), max_eq_left h]

set_option maxRecDepth 4000 in
/-- Claim C1: the claim says the decoded height is red * 256 + green +
blue / 256 - 32768 with blue contributing the fractional sub meter amount
blue / 256, and that the all 255 pixel decodes to 32767 + 255 / 256. The
code performs C integer division, so blue contributes nothing: the all 255
pixel decodes to exactly 32767, and every pixel with red = green = 0
decodes to -32768 whatever its blue byte is, differing from the
specification decoder heightSpec. -/
theorem C1_blue_channel_dropped :
    height_val (pxl_from_rgba 255 255 255 0) = 32767 ∧
    heightSpec 255 255 255 = 255 * 256 + 255 + 255 / 256 - 32768 ∧
    (height_val (pxl_from_rgba 255 255 255 0) : ℝ) ≠ heightSpec 255 255 255 ∧
    (∀ b : Fin 256, height_val (pxl_from_rgba 0 0 b.val 0) = -32768) := by
  refine ⟨by decide, by unfold heightSpec; norm_num, ?_, by decide⟩
  have h : height_val (pxl_from_rgba 255 255 255 0) = 32767 := by decide
  rw [h]
  unfold heightSpec
  norm_num

/-- Claim C2: for output coordinates in [0, 511] squared, dzdx and dzdy are
the central differences of get_height, slope is
arctan (0.2 * sqrt (dzdx ^ 2 + dzdy ^ 2)), aspect is atan2 (-dzdy) (-dzdx),
and get_height reads the storage pixel at (row + 2, col + 2). -/
theorem C2_gradient_slope_aspect (input : ImageRGBA8) (row col : ℤ)
    (hr0 : 0 ≤ row) (hr1 : row ≤ 511) (hc0 : 0 ≤ col) (hc1 : col ≤ 511) :
    dzdx input row col =
        (get_height input row (col + 1) : ℝ) - (get_height input row (col - 1) : ℝ) ∧
    dzdy input row col =
        (get_height input (row + 1) col : ℝ) - (get_height input (row - 1) col : ℝ) ∧
    slope input row col =
        Real.arctan (0.2 * Real.sqrt (dzdx input row col ^ 2 + dzdy input row col ^ 2)) ∧
    aspect input row col = atan2 (-(dzdy input row col)) (-(dzdx input row col)) ∧
    (∀ r c : ℤ, -2 ≤ r → -2 ≤ c →
      get_height input r c = height_val (input.data (r + 2).toNat (c + 2).toNat)) :=
  ⟨rfl, rfl, rfl, rfl, fun _ _ _ _ => rfl⟩

/-- Witness for claim C2 at the all zero bitmap and coordinate (0, 0). -/
theorem C2_gradient_slope_aspect_witness :
    slope (constImg 0) 0 0 =
      Real.arctan (0.2 * Real.sqrt (dzdx (constImg 0) 0 0 ^ 2 + dzdy (constImg 0) 0 0 ^ 2)) :=
  (C2_gradient_slope_aspect (constImg 0) 0 0 (by norm_num) (by norm_num)
    (by norm_num) (by norm_num)).2.2.1

/-- Claim C3: for every pixel and both lights, azimuth 315 and azimuth 225
at elevation 45, the post gamma luminance is
sqrt (max (cos (pi / 2 - aspect - (azimuth - 90) * pi / 180) * sin slope *
sin (pi / 2 - elevRad) + cos slope * cos (pi / 2 - elevRad)) 0 * 0.8 + 0.2)
* 255, and the tints are (luminance1, luminance1 / 2, 0) and
(0, luminance2 / 2, luminance2). -/
theorem C3_two_light_luminance (input : ImageRGBA8) (row col : ℤ) :
    luminance1 input row col =
        Real.sqrt (max (Real.cos (π / 2 - aspect input row col - (315 - 90) * π / 180) *
              Real.sin (slope input row col) * Real.sin (π / 2 - 45 * π / 180) +
            Real.cos (slope input row col) * Real.cos (π / 2 - 45 * π / 180)) 0
          * 0.8 + 0.2) * 255 ∧
    luminance2 input row col =
        Real.sqrt (max (Real.cos (π / 2 - aspect input row col - (225 - 90) * π / 180) *
              Real.sin (slope input row col) * Real.sin (π / 2 - 45 * π / 180) +
            Real.cos (slope input row col) * Real.cos (π / 2 - 45 * π / 180)) 0
          * 0.8 + 0.2) * 255 ∧
    color1 input row col =
        { red := byteOfReal (luminance1 input row col)
          green := byteOfReal (luminance1 input row col / 2)
          blue := 0
          alpha := 255 } ∧
    color2 input row col =
        { red := 0
          green := byteOfReal (luminance2 input row col / 2)
          blue := byteOfReal (luminance2 input row col)
          alpha := 255 } := by
  have hhalf : (π * 0.5 : ℝ) = π / 2 := by ring
  refine ⟨?_, ?_, rfl, rfl⟩
  · simp only [luminance1, postLuminance, rawLuminance]
    rw [ite_lt_zero_eq_max, hhalf]
  · simp only [luminance2, postLuminance, rawLuminance]
    rw [ite_lt_zero_eq_max, hhalf]

/-- Claim C5: each color channel of the blended pixel is the sum of the two
tint channels reduced modulo 256, the uint8_t wraparound of blend. -/
theorem C5_blend_wraparound (input : ImageRGBA8) (row col : ℤ) :
    (hillshadePixel input row col).red =
        ((color1 input row col).red + (color2 input row col).red) % 256 ∧
    (hillshadePixel input row col).green =
        ((color1 input row col).green + (color2 input row col).green) % 256 ∧
    (hillshadePixel input row col).blue =
        ((color1 input row col).blue + (color2 input row col).blue) % 256 :=
  ⟨rfl, rfl, rfl⟩

/-- Slope values are nonnegative: arctan of a nonnegative argument. -/
lemma slope_nonneg (input : ImageRGBA8) (row col : ℤ) : 0 ≤ slope input row col := by
  unfold slope
  have h : (0 : ℝ) ≤ 0.2 * Real.sqrt (dzdx input row col ^ 2 + dzdy input row col ^ 2) := by
    positivity
  have hm := Real.arctan_strictMono.monotone h
  rwa [Real.arctan_zero] at hm

/-- Slope values stay below pi / 2. -/
lemma slope_le_pi_div_two (input : ImageRGBA8) (row col : ℤ) :
    slope input row col ≤ π / 2 :=
  (Real.arctan_lt_pi_div_two _).le

/-- Raw luminance at elevation 45 never exceeds 1 when the slope angle lies
in [0, pi / 2]: the cosine factor is at most 1, and the rest is the cosine
of slope minus pi / 4. -/
lemma rawLuminance_le_one (azimuth slope aspect : ℝ)
    (hs0 : 0 ≤ slope) (hs1 : slope ≤ π / 2) :
    rawLuminance azimuth 45 slope aspect ≤ 1 := by
  unfold rawLuminance
  have harg : (π * 0.5 - 45 * π / 180 : ℝ) = π / 4 := by ring
  rw [harg]
  have hpi : 0 < π := Real.pi_pos
  have hsin : (0 : ℝ) ≤ Real.sin slope :=
    Real.sin_nonneg_of_nonneg_of_le_pi hs0 (hs1.trans (by linarith))
  have hsin4 : (0 : ℝ) ≤ Real.sin (π / 4) := by
    rw [Real.sin_pi_div_four]; positivity
  have h1 : Real.cos (π * 0.5 - aspect - (azimuth - 90) * π / 180) * Real.sin slope *
      Real.sin (π / 4) ≤ Real.sin slope * Real.sin (π / 4) := by
    rw [mul_assoc]
    calc Real.cos (π * 0.5 - aspect - (azimuth - 90) * π / 180) *
          (Real.sin slope * Real.sin (π / 4))
        ≤ 1 * (Real.sin slope * Real.sin (π / 4)) :=
          mul_le_mul_of_nonneg_right (Real.cos_le_one _) (mul_nonneg hsin hsin4)
      _ = Real.sin slope * Real.sin (π / 4) := one_mul _
  have h2 : Real.sin slope * Real.sin (π / 4) + Real.cos slope * Real.cos (π / 4) =
      Real.cos (slope - π / 4) := by
    rw [Real.cos_sub]; ring
  have h3 : Real.cos (slope - π / 4) ≤ 1 := Real.cos_le_one _
  linarith

/-- Post gamma luminance at elevation 45 lies in
[sqrt 0.2 * 255, 255] whenever the slope angle lies in [0, pi / 2]. -/
lemma postLuminance_mem (azimuth slope aspect : ℝ)
    (hs0 : 0 ≤ slope) (hs1 : slope ≤ π / 2) :
    Real.sqrt 0.2 * 255 ≤ postLuminance azimuth 45 slope aspect ∧
    postLuminance azimuth 45 slope aspect ≤ 255 := by
  simp only [postLuminance]
  set l0 := rawLuminance azimuth 45 slope aspect with hl0
  have hle1 : l0 ≤ 1 := rawLuminance_le_one azimuth slope aspect hs0 hs1
  have hmem : 0 ≤ (if l0 < 0 then 0 else l0) ∧ (if l0 < 0 then 0 else l0) ≤ 1 := by
    rcases lt_or_le l0 0 with h | h
    · rw [if_pos h]; norm_num
    · rw [if_neg (Iff.mpr not_lt h)]; exact ⟨h, hle1⟩
  set l1 := if l0 < 0 then 0 else l0
  constructor
  · have harg : (0.2 : ℝ) ≤ l1 * 0.8 + 0.2 := by nlinarith [hmem.1]
    have h := Real.sqrt_le_sqrt harg
    nlinarith [h]
  · have harg : l1 * 0.8 + 0.2 ≤ 1 := by nlinarith [hmem.2]
    have h : Real.sqrt (l1 * 0.8 + 0.2) ≤ 1 := by
      calc Real.sqrt (l1 * 0.8 + 0.2) ≤ Real.sqrt 1 := Real.sqrt_le_sqrt harg
        _ = 1 := Real.sqrt_one
    nlinarith [h]

/-- Narrowing to uint8_t does nothing modulo 256 for reals at most 255. -/
lemma byteOfReal_eq_of_le (x : ℝ) (hx : x ≤ 255) :
    byteOfReal x = Int.toNat ⌊x⌋ := by
  unfold byteOfReal
  apply Nat.mod_eq_of_lt
  have h : ⌊x⌋ ≤ 255 := by
    have h255 := Int.floor_le_floor hx
    simpa using h255
  omega

/-- Claim C9: both post gamma luminances lie in [sqrt 0.2 * 255, 255], so
narrowing the luminance and its half to uint8_t never wraps modulo 256. -/
theorem C9_luminance_range (input : ImageRGBA8) (row col : ℤ) :
    (Real.sqrt 0.2 * 255 ≤ luminance1 input row col ∧ luminance1 input row col ≤ 255) ∧
    (Real.sqrt 0.2 * 255 ≤ luminance2 input row col ∧ luminance2 input row col ≤ 255) ∧
    byteOfReal (luminance1 input row col) = Int.toNat ⌊luminance1 input row col⌋ ∧
    byteOfReal (luminance1 input row col / 2) = Int.toNat ⌊luminance1 input row col / 2⌋ ∧
    byteOfReal (luminance2 input row col) = Int.toNat ⌊luminance2 input row col⌋ ∧
    byteOfReal (luminance2 input row col / 2) = Int.toNat ⌊luminance2 input row col / 2⌋ := by
  have h1 := postLuminance_mem 315 (slope input row col) (aspect input row col)
    (slope_nonneg input row col) (slope_le_pi_div_two input row col)
  have h2 := postLuminance_mem 225 (slope input row col) (aspect input row col)
    (slope_nonneg input row col) (slope_le_pi_div_two input row col)
  have e1 : luminance1 input row col = postLuminance 315 45 (slope input row col)
      (aspect input row col) := rfl
  have e2 : luminance2 input row col = postLuminance 225 45 (slope input row col)
      (aspect input row col) := rfl
  rw [e1, e2]
  refine ⟨h1, h2, ?_, ?_, ?_, ?_⟩
  · exact byteOfReal_eq_of_le _ h1.2
  · exact byteOfReal_eq_of_le _ (by linarith [h1.1, h1.2, Real.sqrt_nonneg (0.2 : ℝ)])
  · exact byteOfReal_eq_of_le _ h2.2
  · exact byteOfReal_eq_of_le _ (by linarith [h2.1, h2.2, Real.sqrt_nonneg (0.2 : ℝ)])

/-- Flat tile predicate: every storage pixel of the 516 by 516 input
decodes to the same height. -/
def flatTile (input : ImageRGBA8) (h0 : ℤ) : Prop :=
  ∀ r c : ℕ, r < 516 → c < 516 → height_val (input.data r c) = h0

/-- On a flat tile every stencil lookup of the core region returns the
common height. -/
lemma get_height_flat (input : ImageRGBA8) (h0 : ℤ) (H : flatTile input h0)
    (r c : ℤ) (hr0 : -2 ≤ r) (hr1 : r ≤ 513) (hc0 : -2 ≤ c) (hc1 : c ≤ 513) :
    get_height input r c = h0 := by
  unfold get_height
  apply H <;> omega

/-- On a flat tile both central differences vanish at every core
coordinate. -/
lemma gradient_flat (input : ImageRGBA8) (h0 : ℤ) (H : flatTile input h0)
    (row col : ℤ) (hr0 : 0 ≤ row) (hr1 : row ≤ 511) (hc0 : 0 ≤ col) (hc1 : col ≤ 511) :
    dzdx input row col = 0 ∧ dzdy input row col = 0 := by
  constructor
  · unfold dzdx
    rw [get_height_flat input h0 H row (col + 1) (by omega) (by omega) (by omega) (by omega),
      get_height_flat input h0 H row (col - 1) (by omega) (by omega) (by omega) (by omega)]
    ring
  · unfold dzdy
    rw [get_height_flat input h0 H (row + 1) col (by omega) (by omega) (by omega) (by omega),
      get_height_flat input h0 H (row - 1) col (by omega) (by omega) (by omega) (by omega)]
    ring

/-- On a flat tile the slope is zero and the aspect is atan2 0 0 = 0. -/
lemma slope_aspect_flat (input : ImageRGBA8) (h0 : ℤ) (H : flatTile input h0)
    (row col : ℤ) (hr0 : 0 ≤ row) (hr1 : row ≤ 511) (hc0 : 0 ≤ col) (hc1 : col ≤ 511) :
    slope input row col = 0 ∧ aspect input row col = 0 := by
  obtain ⟨hx, hy⟩ := gradient_flat input h0 H row col hr0 hr1 hc0 hc1
  constructor
  · unfold slope
    rw [hx, hy]
    norm_num [Real.sqrt_zero, Real.arctan_zero]
  · unfold aspect atan2
    rw [hx, hy]
    norm_num [Complex.arg_zero]

/-- At slope 0 and aspect 0 the post gamma luminance of either light at
elevation 45 is sqrt (sqrt 2 / 2 * 0.8 + 0.2) * 255: the raw luminance
degenerates to cos (pi / 4) = sqrt 2 / 2, which is not negative, so the
clamp at 0 keeps it. -/
lemma postLuminance_flat (azimuth : ℝ) :
    postLuminance azimuth 45 0 0 = Real.sqrt (Real.sqrt 2 / 2 * 0.8 + 0.2) * 255 := by
  have harg : (π * 0.5 - 45 * π / 180 : ℝ) = π / 4 := by ring
  have hraw : rawLuminance azimuth 45 0 0 = Real.sqrt 2 / 2 := by
    unfold rawLuminance
    rw [harg, Real.sin_zero, Real.cos_zero, Real.cos_pi_div_four]
    ring
  simp only [postLuminance, hraw]
  rw [if_neg (Iff.mpr not_lt (by positivity))]

/-- Claim C4 as the code computes it: on a flat tile the gradients, slope
and aspect vanish at every output coordinate, and both post gamma
luminances equal sqrt (sqrt 2 / 2 * 0.8 + 0.2) * 255, about 223, before
tinting. -/
theorem C4_flat_terrain (input : ImageRGBA8) (h0 : ℤ) (H : flatTile input h0)
    (row col : ℤ) (hr0 : 0 ≤ row) (hr1 : row ≤ 511) (hc0 : 0 ≤ col) (hc1 : col ≤ 511) :
    dzdx input row col = 0 ∧ dzdy input row col = 0 ∧
    slope input row col = 0 ∧ aspect input row col = 0 ∧
    luminance1 input row col = Real.sqrt (Real.sqrt 2 / 2 * 0.8 + 0.2) * 255 ∧
    luminance2 input row col = Real.sqrt (Real.sqrt 2 / 2 * 0.8 + 0.2) * 255 := by
  obtain ⟨hx, hy⟩ := gradient_flat input h0 H row col hr0 hr1 hc0 hc1
  obtain ⟨hs, ha⟩ := slope_aspect_flat input h0 H row col hr0 hr1 hc0 hc1
  refine ⟨hx, hy, hs, ha, ?_, ?_⟩
  · show postLuminance 315 45 (slope input row col) (aspect input row col) = _
    rw [hs, ha]
    exact postLuminance_flat 315
  · show postLuminance 225 45 (slope input row col) (aspect input row col) = _
    rw [hs, ha]
    exact postLuminance_flat 225

/-- Witness for claim C4 at the all zero bitmap, whose pixels all decode to
-32768, at coordinate (0, 0). -/
theorem C4_flat_terrain_witness :
    slope (constImg 0) 0 0 = 0 ∧
    luminance1 (constImg 0) 0 0 = Real.sqrt (Real.sqrt 2 / 2 * 0.8 + 0.2) * 255 := by
  have hconst : height_val 0 = -32768 := by decide
  have h := C4_flat_terrain (constImg 0) (-32768) (fun _ _ _ _ => hconst) 0 0
    (by norm_num) (by norm_num) (by norm_num) (by norm_num)
  exact ⟨h.2.2.1, h.2.2.2.2.1⟩

/-- Counterexample to claim C4 as stated: on the flat all zero bitmap the
post gamma luminance is sqrt (sqrt 2 / 2 * 0.8 + 0.2) * 255, which differs
from the claimed sqrt 0.2 * 255, because flat terrain still receives
cos (pi / 2 - elevRad) = sqrt 2 / 2 of direct light. -/
theorem C4_flat_terrain_counterexample :
    flatTile (constImg 0) (-32768) ∧
    luminance1 (constImg 0) 0 0 ≠ Real.sqrt 0.2 * 255 := by
  have hconst : height_val 0 = -32768 := by decide
  have H : flatTile (constImg 0) (-32768) := fun _ _ _ _ => hconst
  refine ⟨H, ?_⟩
  obtain ⟨hs, ha⟩ := slope_aspect_flat (constImg 0) (-32768) H 0 0
    (by norm_num) (by norm_num) (by norm_num) (by norm_num)
  have hval : luminance1 (constImg 0) 0 0 = Real.sqrt (Real.sqrt 2 / 2 * 0.8 + 0.2) * 255 := by
    show postLuminance 315 45 (slope (constImg 0) 0 0) (aspect (constImg 0) 0 0) = _
    rw [hs, ha]
    exact postLuminance_flat 315
  rw [hval]
  have h2 : (0 : ℝ) < Real.sqrt 2 := Real.sqrt_pos.mpr (by norm_num)
  have hlt : Real.sqrt 0.2 < Real.sqrt (Real.sqrt 2 / 2 * 0.8 + 0.2) := by
    apply Real.sqrt_lt_sqrt (by norm_num)
    linarith
  have hmul : Real.sqrt 0.2 * 255 < Real.sqrt (Real.sqrt 2 / 2 * 0.8 + 0.2) * 255 := by
    nlinarith [hlt]
  exact ne_of_gt hmul

/-- Clamping of the alpha value by the two if statements equals the max
min clamp of the specification. -/
lemma alphaVal_clamp (input : ImageRGBA8) (row col : ℤ) :
    alphaVal input row col =
      max 0 (min (((get_height input row col : ℝ) - 20) / 100 * 255) 255) := by
  simp only [alphaVal]
  set a0 := ((get_height input row col : ℝ) - 20) / 100 * 255 with ha0
  rcases le_or_lt a0 255 with h | h
  · rw [if_neg (Iff.mpr not_lt h), min_eq_left h]
    rcases lt_or_le a0 0 with h2 | h2
    · rw [if_pos h2, max_eq_left h2.le]
    · rw [if_neg (Iff.mpr not_lt h2), max_eq_right h2]
  · rw [if_pos h, min_eq_right h.le]
    rw [if_neg (by norm_num : ¬(255 : ℝ) < 0), max_eq_right (by norm_num : (0 : ℝ) ≤ 255)]

/-- The clamped alpha value never exceeds 255. -/
lemma alphaVal_le (input : ImageRGBA8) (row col : ℤ) : alphaVal input row col ≤ 255 := by
  rw [alphaVal_clamp]
  exact max_le (by norm_num) (min_le_right _ _)

/-- The alpha channel of the output pixel is the floor of the clamped alpha
value, taken as a natural number. -/
lemma hillshade_alpha (input : ImageRGBA8) (row col : ℤ) :
    (hillshadePixel input row col).alpha = Int.toNat ⌊alphaVal input row col⌋ := by
  show byteOfReal (alphaVal input row col) = _
  exact byteOfReal_eq_of_le _ (alphaVal_le input row col)

/-- Floor of 127.5 is 127. -/
lemma floor_half : ⌊(127.5 : ℝ)⌋ = 127 := by
  rw [Int.floor_eq_iff]
  norm_num

/-- At decoded height 70 the alpha value is exactly 127.5 and the alpha
channel narrows to 127: the conversion to uint8_t truncates toward zero. -/
lemma alpha_at_seventy (input : ImageRGBA8) (row col : ℤ)
    (h : (get_height input row col : ℝ) = 70) :
    (hillshadePixel input row col).alpha = 127 := by
  rw [hillshade_alpha, alphaVal_clamp, h]
  have hv : ((70 : ℝ) - 20) / 100 * 255 = 127.5 := by norm_num
  rw [hv, min_eq_left (by norm_num), max_eq_right (by norm_num), floor_half]
  rfl

/-- Claim C6 as the code computes it: the alpha channel is the clamp of
(height - 20) / 100 * 255 to [0, 255], truncated toward zero; height 20
gives 0, height 120 gives 255, height 70 gives 127, not 128. -/
theorem C6_alpha_clamp (input : ImageRGBA8) (row col : ℤ) :
    (hillshadePixel input row col).alpha =
        Int.toNat ⌊max 0 (min (((get_height input row col : ℝ) - 20) / 100 * 255) 255)⌋ ∧
    ((get_height input row col : ℝ) = 20 → (hillshadePixel input row col).alpha = 0) ∧
    ((get_height input row col : ℝ) = 120 → (hillshadePixel input row col).alpha = 255) ∧
    ((get_height input row col : ℝ) = 70 → (hillshadePixel input row col).alpha = 127) := by
  refine ⟨by rw [hillshade_alpha, alphaVal_clamp], ?_, ?_, fun h => alpha_at_seventy input row col h⟩
  · intro h
    rw [hillshade_alpha, alphaVal_clamp, h]
    norm_num
  · intro h
    rw [hillshade_alpha, alphaVal_clamp, h]
    norm_num
    rfl

/-- Witness for claim C6 on the constant bitmap whose pixels decode to
height 70, taking the implication at height 70. -/
theorem C6_alpha_clamp_witness :
    (hillshadePixel (constImg (pxl_from_rgba 128 70 0 0)) 0 0).alpha = 127 := by
  have hh : (get_height (constImg (pxl_from_rgba 128 70 0 0)) 0 0 : ℝ) = 70 := by
    have h : get_height (constImg (pxl_from_rgba 128 70 0 0)) 0 0 = 70 := by decide
    rw [h]; norm_num
  exact (C6_alpha_clamp (constImg (pxl_from_rgba 128 70 0 0)) 0 0).2.2.2 hh

/-- Counterexample to claim C6 as stated: on the constant bitmap of decoded
height 70 the alpha value is exactly 127.5, yet the output alpha channel is
127, not the claimed 128, because the narrowing conversion truncates. -/
theorem C6_alpha_counterexample :
    get_height (constImg (pxl_from_rgba 128 70 0 0)) 0 0 = 70 ∧
    alphaVal (constImg (pxl_from_rgba 128 70 0 0)) 0 0 = 127.5 ∧
    (hillshadePixel (constImg (pxl_from_rgba 128 70 0 0)) 0 0).alpha = 127 ∧
    (127 : ℕ) ≠ 128 := by
  have h : get_height (constImg (pxl_from_rgba 128 70 0 0)) 0 0 = 70 := by decide
  have hh : (get_height (constImg (pxl_from_rgba 128 70 0 0)) 0 0 : ℝ) = 70 := by
    rw [h]; norm_num
  refine ⟨h, ?_, alpha_at_seventy _ 0 0 hh, by decide⟩
  rw [alphaVal_clamp, hh]
  norm_num

/-- A call in the done state returns the empty feature pointer and leaves
the state unchanged. -/
lemma next_done (fs : featureset_state) (r : Except read_error ImageRGBA8)
    (h : fs.done = true) : next fs r = (none, fs) := by
  unfold next
  rw [if_pos h]

/-- Every call from a done state yields none, whatever the reads return. -/
lemma callSeq_done (fs : featureset_state) (h : fs.done = true) :
    ∀ rs : List (Except read_error ImageRGBA8),
      callSeq fs rs = List.replicate rs.length none := by
  intro rs
  induction rs with
  | nil => rfl
  | cons r rs ih =>
      show (next fs r).1 :: callSeq (next fs r).2 rs = _
      rw [next_done fs r h]
      simpa [List.replicate] using ih

/-- The state after the first call is done, on success and on failure. -/
lemma next_first_done (r : Except read_error ImageRGBA8) :
    (next initState r).2.done = true := by
  cases r <;> simp [next, initState]

/-- Claim C7: after the first call the producer is done, and the second and
every later call returns the empty feature pointer, regardless of whether
the first read succeeded or failed. -/
theorem C7_single_shot (r1 : Except read_error ImageRGBA8)
    (rs : List (Except read_error ImageRGBA8)) :
    (next initState r1).2.done = true ∧
    callSeq (next initState r1).2 rs = List.replicate rs.length none :=
  ⟨next_first_done r1, callSeq_done _ (next_first_done r1) rs⟩

/-- Claim C8: a failing read or decode on the first call is absorbed: the
call still returns normally, the returned feature carries no raster, the
feature id advances, and the producer is immediately done. -/
theorem C8_failure_caught (e : read_error) :
    next initState (Except.error e) =
      (some { id := 1, raster := none }, { feature_id := 2, done := true }) := by
  simp [next, initState]

/-- Claim C10: the first call always returns a feature with identity 1; on
a failed read the feature simply has no raster attached. -/
theorem C10_first_call_feature :
    (∀ input : ImageRGBA8, ∃ f : feature,
        (next initState (Except.ok input)).1 = some f ∧ f.id = 1) ∧
    (∀ e : read_error, ∃ f : feature,
        (next initState (Except.error e)).1 = some f ∧ f.id = 1 ∧ f.raster = none) := by
  constructor
  · intro input
    refine ⟨{ id := 1,
              raster := some (fun row col => process_hillshade input row col) }, ?_, rfl⟩
    simp [next, initState]
  · intro e
    refine ⟨{ id := 1, raster := none }, ?_, rfl, rfl⟩
    simp [next, initState]

end Terrarium
